import Mathlib

/-!
Verification of the CrepePosApi dashboard statistics handler.

The repository has two revisions of `DashboardController.getStats`:
* the period-scheme revision (`src/controllers/dashboard.controller.ts`),
  suffix `TS` below: `period` in (today, week, month, custom), CST modelled
  as a fixed UTC-6 offset, branch filter constructed but commented out;
* the month-comparison revision (the unnamed source file), suffix `P0`
  below: current vs previous calendar month, percentage-change fields,
  trailing-7-day series and top-products ranking, branch filter active.

Modelling conventions:
* Timestamps are integers counting milliseconds, the unit of JavaScript
  `Date.getTime()`.  Civil calendar arithmetic of the JS `Date`
  constructor (month and day-of-month overflow) is embedded through a
  days-from-civil function on the proleptic Gregorian calendar.
* JS numbers are modelled as exact rationals; `Int` division `/` and `%`
  in Lean are Euclidean, which for the positive divisors used here agree
  with the floor semantics of the JS operations being modelled.
* The clock is passed as the record of civil fields the code reads from
  `new Date()` (`getFullYear`, `getMonth`, `getDate`, `getDay`), and the
  well-formed `YYYY-MM-DD` query strings of the custom range are passed
  as civil date triples.
* The data store is a record of row lists; each ORM query is embedded as
  the corresponding filter / group-by / order-by / take pipeline, with
  the store's unspecified tie order modelled by a stable sort.
-/

namespace CrepePos

/-! ### Calendar model -/

/-- Days since 1970-01-01 of the civil date `(y, m, d)` with `m` 1-based in
`[1, 12]` (proleptic Gregorian).  Standard era/year-of-era computation; all
divisions are by positive constants, so Euclidean `/` is floor division. -/
def daysFromCivil (y m d : ℤ) : ℤ :=
  let y2 := if m ≤ 2 then y - 1 else y
  let era := y2 / 400
  let yoe := y2 - era * 400
  let mp := if 2 < m then m - 3 else m + 9
  let doy := (153 * mp + 2) / 5 + d - 1
  let doe := yoe * 365 + yoe / 4 - yoe / 100 + doy
  era * 146097 + doe - 719468

/-- Days since epoch of the first day of month `m` (0-based, any integer) of
year `y`, with the month-overflow normalization of the JS `Date`
constructor (ES `MakeDay`): year `y + m / 12`, month `m % 12`. -/
def firstOfMonthDays (y m : ℤ) : ℤ :=
  daysFromCivil (y + m / 12) (m % 12 + 1) 1

/-- Milliseconds since epoch of `new Date(y, m, d, h, mi, s, ms)` in the
clock's own civil timeline: month overflow is normalized as in ES
`MakeDay`, and day-of-month `d` may be `0` or out of range (offset from
day 1 of the normalized month). -/
def jsDateMs (y m d h mi s ms : ℤ) : ℤ :=
  (firstOfMonthDays y m + (d - 1)) * 86400000
    + h * 3600000 + mi * 60000 + s * 1000 + ms

/-- Length in days of month `m` (0-based) of year `y`. -/
def monthLengthDays (y m : ℤ) : ℤ :=
  firstOfMonthDays y (m + 1) - firstOfMonthDays y m

/-- First-of-month day count as a function of the absolute month index
`t = 12 * y + m`. -/
def monthIndexDays (t : ℤ) : ℤ :=
  daysFromCivil (t / 12) (t % 12 + 1) 1

/-- One block of 480 consecutive months of the finite check that the
first-of-month day count strictly increases from each month to the next. -/
def monthStepBlock (k : ℕ) : Bool :=
  (List.range 480).all
    (fun r => decide (monthIndexDays ((480 * k + r : ℕ) : ℤ)
      < monthIndexDays (((480 * k + r : ℕ) : ℤ) + 1)))

/-- Finite check over one full 400-year leap cycle of months (4800 months),
split into blocks to keep evaluation depth low. -/
def monthStepAll : Bool :=
  (List.range 10).all (fun k => monthStepBlock k)

/-! ### Number formatting and parsing -/

/-- JS `Number.prototype.toFixed(1)` on an exact rational: rounds `|q|` to
the nearest tenth (ties to the larger candidate, per the ES spec), then
prepends the sign of `q`; a negative value rounding to zero therefore
renders as the string with a leading minus sign. -/
def toFixed1 (q : ℚ) : String :=
  let n : ℕ := ⌊10 * |q| + 1 / 2⌋₊
  (if q < 0 then "-" else "") ++ toString (n / 10) ++ "." ++ toString (n % 10)

/-- JS `Number.prototype.toFixed(2)` on an exact rational, same scheme with
two digits after the dot. -/
def toFixed2 (q : ℚ) : String :=
  let n : ℕ := ⌊100 * |q| + 1 / 2⌋₊
  (if q < 0 then "-" else "") ++ toString (n / 100) ++ "."
    ++ (if n % 100 < 10 then "0" else "") ++ toString (n % 100)

def digitsToNat (l : List Char) : ℕ :=
  l.foldl (fun a c => 10 * a + (c.toNat - 48)) 0

def parseUnsignedFixed (l : List Char) : ℚ :=
  let ip := l.takeWhile (fun c => c ≠ '.')
  let fp := (l.dropWhile (fun c => c ≠ '.')).drop 1
  (digitsToNat ip : ℚ) + (digitsToNat fp : ℚ) / (10 : ℚ) ^ fp.length

/-- JS `parseFloat` restricted to the decimal fixed-notation strings
produced by `toFixed1` / `toFixed2` (optional minus sign, digits, optional
dot and fraction digits).  JS `-0` is collapsed to the rational `0`, which
matches the behaviour of every comparison the handler performs on the
parsed value (`-0 >= 0` is true in JS). -/
def parseFixed (s : String) : ℚ :=
  match s.toList with
  | [] => 0
  | c :: rest => if c = '-' then -parseUnsignedFixed rest else parseUnsignedFixed (c :: rest)

/-- The `positive` flag: `parseFloat(change) >= 0`. -/
def positiveOf (s : String) : Bool :=
  decide (0 ≤ parseFixed s)

/-- Percentage-change string `((cur - prev) / prev * 100).toFixed(1)` with
the `prev > 0` guard returning the literal string otherwise. -/
def pctChangeStr (cur prev : ℚ) : String :=
  if 0 < prev then toFixed1 ((cur - prev) / prev * 100) else "0.0"

/-- JS `Math.round`: half rounds toward positive infinity. -/
def jsRound (q : ℚ) : ℤ := ⌊q + 1 / 2⌋

/-! ### Data model (rows of the external store) -/

structure Sale where
  id : ℕ
  created_at : ℤ
  total : ℚ
  user_id : ℕ
deriving DecidableEq

structure SaleDetail where
  sale_id : ℕ
  product_id : Option ℕ
  combo_id : Option ℕ
  amount : ℤ
deriving DecidableEq

structure Product where
  id : ℕ
  name : String
  type_id : Option ℕ
deriving DecidableEq

structure NamedRow where
  id : ℕ
  name : String
deriving DecidableEq

structure UserBranch where
  user_id : ℕ
  branch_id : ℕ
deriving DecidableEq

structure Store where
  sales : List Sale
  details : List SaleDetail
  products : List Product
  typeProducts : List NamedRow
  combos : List NamedRow
  userBranch : List UserBranch
deriving DecidableEq

/-- A ranked entry `{ name, sales }` of the response. -/
structure Entry where
  name : String
  sales : ℤ
deriving DecidableEq

/-! ### Shared query building blocks -/

/-- `created_at: { gte: lo, lte: hi }`. -/
def saleInRange (lo hi : ℤ) (s : Sale) : Bool :=
  decide (lo ≤ s.created_at) && decide (s.created_at ≤ hi)

/-- A `sale_detail` row whose parent `sale` (joined by `sale_id`)
satisfies `p`; rows with no parent match nothing. -/
def detailSaleSatisfies (st : Store) (p : Sale → Bool) (d : SaleDetail) : Bool :=
  match st.sales.find? (fun s => s.id == d.sale_id) with
  | some s => p s
  | none => false

/-- `reduce((sum, sale) => sum + sale.total, 0)`. -/
def sumTotals (l : List Sale) : ℚ :=
  l.foldl (fun sum s => sum + s.total) 0

/-- `reduce((sum, detail) => sum + detail.amount, 0)`. -/
def sumAmounts (l : List SaleDetail) : ℤ :=
  l.foldl (fun sum d => sum + d.amount) 0

/-- Add `amt` to the group of key `k`, keeping first-appearance order
(Map/group insertion order). -/
def bumpGroup : List (ℕ × ℤ) → ℕ → ℤ → List (ℕ × ℤ)
  | [], k, amt => [(k, amt)]
  | (k0, v) :: rest, k, amt =>
      if k0 == k then (k0, v + amt) :: rest else (k0, v) :: bumpGroup rest k amt

/-- `groupBy` with `_sum: { amount: true }` over the rows whose `key` is
non-null. -/
def groupSumsBy (key : SaleDetail → Option ℕ) (l : List SaleDetail) : List (ℕ × ℤ) :=
  l.foldl (fun acc d => match key d with | some k => bumpGroup acc k d.amount | none => acc) []

/-- `orderBy: { _sum: { amount: 'desc' } }, take: 5`; the store's
unspecified tie order is modelled by a stable sort. -/
def rankTop5 (l : List (ℕ × ℤ)) : List (ℕ × ℤ) :=
  (List.insertionSort (fun a b => b.2 ≤ a.2) l).take 5

def lookupName (rows : List NamedRow) (i : ℕ) : Option String :=
  (rows.find? (fun r => r.id == i)).map (fun r => r.name)

/-- `row?.name || 'Unknown'` (JS: an absent row and an empty-string name
are both falsy). -/
def resolveDisplayName : Option String → String
  | some n => if n = "" then "Unknown" else n
  | none => "Unknown"

instance : IsTotal (ℕ × ℤ) (fun a b => b.2 ≤ a.2) :=
  ⟨fun a b => le_total b.2 a.2⟩

instance : IsTrans (ℕ × ℤ) (fun a b => b.2 ≤ a.2) :=
  ⟨fun _ _ _ h1 h2 => le_trans h2 h1⟩

instance : IsTotal Entry (fun a b => b.sales ≤ a.sales) :=
  ⟨fun a b => le_total b.sales a.sales⟩

instance : IsTrans Entry (fun a b => b.sales ≤ a.sales) :=
  ⟨fun _ _ _ h1 h2 => le_trans h2 h1⟩

/-! ### Month-comparison revision (`P0`) -/

/-- The fields of `new Date()` the month-comparison revision reads. -/
structure NowP0 where
  year : ℤ
  month : ℤ
  date : ℤ
deriving DecidableEq

/-- `new Date(now.getFullYear(), now.getMonth(), 1)`. -/
def currentMonthStartP0 (y m : ℤ) : ℤ := jsDateMs y m 1 0 0 0 0

/-- `new Date(now.getFullYear(), now.getMonth() + 1, 0, 23, 59, 59)`. -/
def currentMonthEndP0 (y m : ℤ) : ℤ := jsDateMs y (m + 1) 0 23 59 59 0

/-- `new Date(now.getFullYear(), now.getMonth() - 1, 1)`. -/
def previousMonthStartP0 (y m : ℤ) : ℤ := jsDateMs y (m - 1) 1 0 0 0 0

/-- `new Date(now.getFullYear(), now.getMonth(), 0, 23, 59, 59)`. -/
def previousMonthEndP0 (y m : ℤ) : ℤ := jsDateMs y m 0 23 59 59 0

/-- The branch membership filter (`user.user_branch.some.branch_id`),
applied when `branch_id` is present. -/
def branchOk (st : Store) (br : Option ℕ) (s : Sale) : Bool :=
  match br with
  | none => true
  | some bid => st.userBranch.any (fun ub => ub.user_id == s.user_id && ub.branch_id == bid)

/-- `salesWhereClause` plus a `created_at` range. -/
def salesWhereP0 (st : Store) (br : Option ℕ) (lo hi : ℤ) : Sale → Bool :=
  fun s => branchOk st br s && saleInRange lo hi s

def currentMonthSalesP0 (st : Store) (now : NowP0) (br : Option ℕ) : List Sale :=
  st.sales.filter
    (salesWhereP0 st br (currentMonthStartP0 now.year now.month) (currentMonthEndP0 now.year now.month))

def previousMonthSalesP0 (st : Store) (now : NowP0) (br : Option ℕ) : List Sale :=
  st.sales.filter
    (salesWhereP0 st br (previousMonthStartP0 now.year now.month) (previousMonthEndP0 now.year now.month))

def currentMonthDetailsP0 (st : Store) (now : NowP0) (br : Option ℕ) : List SaleDetail :=
  st.details.filter
    (detailSaleSatisfies st
      (salesWhereP0 st br (currentMonthStartP0 now.year now.month) (currentMonthEndP0 now.year now.month)))

def previousMonthDetailsP0 (st : Store) (now : NowP0) (br : Option ℕ) : List SaleDetail :=
  st.details.filter
    (detailSaleSatisfies st
      (salesWhereP0 st br (previousMonthStartP0 now.year now.month) (previousMonthEndP0 now.year now.month)))

def currentTotalSalesP0 (st : Store) (now : NowP0) (br : Option ℕ) : ℚ :=
  sumTotals (currentMonthSalesP0 st now br)

def currentOrderCountP0 (st : Store) (now : NowP0) (br : Option ℕ) : ℕ :=
  (currentMonthSalesP0 st now br).length

def currentProductsSoldP0 (st : Store) (now : NowP0) (br : Option ℕ) : ℤ :=
  sumAmounts (currentMonthDetailsP0 st now br)

/-- `currentOrderCount > 0 ? currentTotalSales / currentOrderCount : 0`. -/
def currentAvgTicketP0 (st : Store) (now : NowP0) (br : Option ℕ) : ℚ :=
  if 0 < currentOrderCountP0 st now br then
    currentTotalSalesP0 st now br / (currentOrderCountP0 st now br : ℚ)
  else 0

def previousTotalSalesP0 (st : Store) (now : NowP0) (br : Option ℕ) : ℚ :=
  sumTotals (previousMonthSalesP0 st now br)

def previousOrderCountP0 (st : Store) (now : NowP0) (br : Option ℕ) : ℕ :=
  (previousMonthSalesP0 st now br).length

def previousProductsSoldP0 (st : Store) (now : NowP0) (br : Option ℕ) : ℤ :=
  sumAmounts (previousMonthDetailsP0 st now br)

def previousAvgTicketP0 (st : Store) (now : NowP0) (br : Option ℕ) : ℚ :=
  if 0 < previousOrderCountP0 st now br then
    previousTotalSalesP0 st now br / (previousOrderCountP0 st now br : ℚ)
  else 0

def salesChangeP0 (st : Store) (now : NowP0) (br : Option ℕ) : String :=
  pctChangeStr (currentTotalSalesP0 st now br) (previousTotalSalesP0 st now br)

def ordersChangeP0 (st : Store) (now : NowP0) (br : Option ℕ) : String :=
  pctChangeStr (currentOrderCountP0 st now br : ℚ) (previousOrderCountP0 st now br : ℚ)

def productsSoldChangeP0 (st : Store) (now : NowP0) (br : Option ℕ) : String :=
  pctChangeStr (currentProductsSoldP0 st now br : ℚ) (previousProductsSoldP0 st now br : ℚ)

def avgTicketChangeP0 (st : Store) (now : NowP0) (br : Option ℕ) : String :=
  pctChangeStr (currentAvgTicketP0 st now br) (previousAvgTicketP0 st now br)

/-- `new Date()` with `setDate(getDate() - 6)` and `setHours(0,0,0,0)`. -/
def last7DaysStartP0 (now : NowP0) : ℤ :=
  jsDateMs now.year now.month (now.date - 6) 0 0 0 0

/-- `sale.findMany` with `created_at: { gte: last7DaysStart }` and
`orderBy: { created_at: 'asc' }`. -/
def last7DaysSalesP0 (st : Store) (now : NowP0) (br : Option ℕ) : List Sale :=
  List.insertionSort (fun a b => a.created_at ≤ b.created_at)
    (st.sales.filter (fun s => branchOk st br s && decide (last7DaysStartP0 now ≤ s.created_at)))

/-- The 7 daily buckets: `Math.floor((created_at - start) / dayMs)` indexes
into `Array(7).fill(0)`, guarded to `[0, 7)`. -/
def salesByDayP0 (st : Store) (now : NowP0) (br : Option ℕ) : List ℚ :=
  (last7DaysSalesP0 st now br).foldl
    (fun acc s =>
      let dayIndex := (s.created_at - last7DaysStartP0 now) / 86400000
      if 0 ≤ dayIndex ∧ dayIndex < 7 then
        acc.set dayIndex.toNat (acc.getD dayIndex.toNat 0 + s.total)
      else acc)
    (List.replicate 7 (0 : ℚ))

/-- `sale_detail.groupBy` over the trailing-7-day window: non-null
`product_id`, parent sale passes the branch filter and
`created_at >= last7DaysStart`, summed by `amount`, descending, take 5. -/
def topProductsDataP0 (st : Store) (now : NowP0) (br : Option ℕ) : List (ℕ × ℤ) :=
  rankTop5 (groupSumsBy (fun d => d.product_id)
    (st.details.filter (fun d => d.product_id.isSome &&
      detailSaleSatisfies st
        (fun s => branchOk st br s && decide (last7DaysStartP0 now ≤ s.created_at)) d)))

def lookupProductName (st : Store) (i : ℕ) : Option String :=
  (st.products.find? (fun p => p.id == i)).map (fun p => p.name)

def topProductsP0 (st : Store) (now : NowP0) (br : Option ℕ) : List Entry :=
  (topProductsDataP0 st now br).map
    (fun it => ⟨resolveDisplayName (lookupProductName st it.1), it.2⟩)

/-- The JSON body of the month-comparison revision, flattened: each metric
contributes its `value`, `change` and `positive` fields. -/
structure RespP0 where
  totalSalesValue : String
  salesChange : String
  salesPositive : Bool
  ordersValue : ℕ
  ordersChange : String
  ordersPositive : Bool
  productsSoldValue : ℤ
  productsSoldChange : String
  productsSoldPositive : Bool
  avgTicketValue : String
  avgTicketChange : String
  avgTicketPositive : Bool
  salesByDay : List ℤ
  topProducts : List Entry
deriving DecidableEq

def getStatsP0 (st : Store) (now : NowP0) (br : Option ℕ) : RespP0 :=
  { totalSalesValue := toFixed2 (currentTotalSalesP0 st now br)
    salesChange := salesChangeP0 st now br
    salesPositive := positiveOf (salesChangeP0 st now br)
    ordersValue := currentOrderCountP0 st now br
    ordersChange := ordersChangeP0 st now br
    ordersPositive := positiveOf (ordersChangeP0 st now br)
    productsSoldValue := currentProductsSoldP0 st now br
    productsSoldChange := productsSoldChangeP0 st now br
    productsSoldPositive := positiveOf (productsSoldChangeP0 st now br)
    avgTicketValue := toFixed2 (currentAvgTicketP0 st now br)
    avgTicketChange := avgTicketChangeP0 st now br
    avgTicketPositive := positiveOf (avgTicketChangeP0 st now br)
    salesByDay := (salesByDayP0 st now br).map jsRound
    topProducts := topProductsP0 st now br }

/-! ### Period-scheme revision (`TS`) -/

/-- A well-formed `YYYY-MM-DD` query string, as its civil fields
(`month` 1-based). -/
structure CivilDate where
  year : ℤ
  month : ℤ
  day : ℤ
deriving DecidableEq

structure ReqTS where
  branch_id : Option ℕ
  period : Option String
  startDate : Option CivilDate
  endDate : Option CivilDate
deriving DecidableEq

/-- The fields the code reads from `nowCst` (the clock shifted to UTC-6). -/
structure NowCst where
  year : ℤ
  month : ℤ
  date : ℤ
  day : ℤ
deriving DecidableEq

/-- 6 hours in milliseconds: the fixed CST-to-UTC shift. -/
def cstOffsetMs : ℤ := 21600000

/-- `cstToUtc`: parse `dateStr` at start (or end) of day in the fixed
UTC-6 zone and convert to a UTC instant. -/
def cstToUtcMs (d : CivilDate) (isEndOfDay : Bool) : ℤ :=
  daysFromCivil d.year d.month d.day * 86400000
    + (if isEndOfDay then 86399999 else 0) + cstOffsetMs

/-- `(req.query.period as string) || 'today'` (an absent or empty string
falls back to the default). -/
def effectivePeriod (req : ReqTS) : String :=
  match req.period with
  | none => "today"
  | some s => if s = "" then "today" else s

/-- The `switch (period)` of the period-scheme revision: resolve
`(startDate, endDate)` as UTC instants or return the 400 error message. -/
def resolveWindowTS (now : NowCst) (req : ReqTS) : Except String (ℤ × ℤ) :=
  if effectivePeriod req = "today" then
    .ok (jsDateMs now.year now.month now.date 0 0 0 0 + cstOffsetMs,
         jsDateMs now.year now.month now.date 23 59 59 999 + cstOffsetMs)
  else if effectivePeriod req = "week" then
    .ok (jsDateMs now.year now.month
           (now.date - (if now.day = 0 then 6 else now.day - 1)) 0 0 0 0 + cstOffsetMs,
         jsDateMs now.year now.month
           (now.date + (if now.day = 0 then 0 else 7 - now.day)) 23 59 59 999 + cstOffsetMs)
  else if effectivePeriod req = "month" then
    .ok (jsDateMs now.year now.month 1 0 0 0 0 + cstOffsetMs,
         jsDateMs now.year (now.month + 1) 0 23 59 59 999 + cstOffsetMs)
  else if effectivePeriod req = "custom" then
    match req.startDate, req.endDate with
    | some sd, some ed => .ok (cstToUtcMs sd false, cstToUtcMs ed true)
    | _, _ => .error ("Custom range requires startDate and endDate")
  else
    .error ("Invalid period. Use: today, week, month, or custom")

/-- The `whereClause` of this revision: the branch filter is constructed
from `branch_id` but its application is commented out in the source
("for now, don't filter by branch to debug"), so every sale passes. -/
def whereClauseTS (req : ReqTS) (s : Sale) : Bool := true

def salesQueryTS (st : Store) (req : ReqTS) (w : ℤ × ℤ) : List Sale :=
  st.sales.filter (fun s => whereClauseTS req s && saleInRange w.1 w.2 s)

def saleDetailsQueryTS (st : Store) (req : ReqTS) (w : ℤ × ℤ) : List SaleDetail :=
  st.details.filter
    (detailSaleSatisfies st (fun s => whereClauseTS req s && saleInRange w.1 w.2 s))

def totalSalesTS (st : Store) (req : ReqTS) (w : ℤ × ℤ) : ℚ :=
  sumTotals (salesQueryTS st req w)

def orderCountTS (st : Store) (req : ReqTS) (w : ℤ × ℤ) : ℕ :=
  (salesQueryTS st req w).length

def productsSoldTS (st : Store) (req : ReqTS) (w : ℤ × ℤ) : ℤ :=
  sumAmounts (saleDetailsQueryTS st req w)

/-- `orderCount > 0 ? totalSales / orderCount : 0`. -/
def avgTicketTS (st : Store) (req : ReqTS) (w : ℤ × ℤ) : ℚ :=
  if 0 < orderCountTS st req w then
    totalSalesTS st req w / (orderCountTS st req w : ℚ)
  else 0

/-- `sale_detail.findMany` with non-null `product_id` and the parent sale
in the resolved window (the query that feeds the product-type ranking). -/
def saleDetailsWithProductsTS (st : Store) (req : ReqTS) (w : ℤ × ℤ) : List SaleDetail :=
  st.details.filter (fun d => d.product_id.isSome &&
    detailSaleSatisfies st (fun s => whereClauseTS req s && saleInRange w.1 w.2 s) d)

/-- The `include: { product: ... }` join. -/
def productOfDetail (st : Store) (d : SaleDetail) : Option Product :=
  d.product_id.bind (fun pid => st.products.find? (fun p => p.id == pid))

/-- The nested `type_product` join. -/
def typeOfProduct (st : Store) (p : Product) : Option NamedRow :=
  p.type_id.bind (fun tid => st.typeProducts.find? (fun t => t.id == tid))

/-- `Map.set` update of the type grouping: an existing key keeps its name
and accumulates `sales`, a new key is appended (insertion order). -/
def bumpTypeMap : List (ℕ × String × ℤ) → ℕ → String → ℤ → List (ℕ × String × ℤ)
  | [], tid, tname, amt => [(tid, tname, amt)]
  | (t0, n0, v0) :: rest, tid, tname, amt =>
      if t0 == tid then (t0, n0, v0 + amt) :: rest
      else (t0, n0, v0) :: bumpTypeMap rest tid tname amt

/-- The `forEach` that groups details by `type_id`, skipping details whose
product or product type cannot be resolved. -/
def typeMapTS (st : Store) (req : ReqTS) (w : ℤ × ℤ) : List (ℕ × String × ℤ) :=
  (saleDetailsWithProductsTS st req w).foldl
    (fun acc d =>
      match productOfDetail st d with
      | some p =>
          match typeOfProduct st p, p.type_id with
          | some t, some tid => bumpTypeMap acc tid t.name d.amount
          | _, _ => acc
      | none => acc) []

/-- `Array.from(typeMap.values()).sort((a, b) => b.sales - a.sales).slice(0, 5)`. -/
def topProductsTS (st : Store) (req : ReqTS) (w : ℤ × ℤ) : List Entry :=
  (List.insertionSort (fun a b => b.sales ≤ a.sales)
    ((typeMapTS st req w).map (fun x => Entry.mk x.2.1 x.2.2))).take 5

def comboDetailsTS (st : Store) (req : ReqTS) (w : ℤ × ℤ) : List SaleDetail :=
  st.details.filter (fun d => d.combo_id.isSome &&
    detailSaleSatisfies st (fun s => whereClauseTS req s && saleInRange w.1 w.2 s) d)

/-- `sale_detail.groupBy` by `combo_id`, summed by `amount`, descending,
take 5. -/
def topCombosDataTS (st : Store) (req : ReqTS) (w : ℤ × ℤ) : List (ℕ × ℤ) :=
  rankTop5 (groupSumsBy (fun d => d.combo_id) (comboDetailsTS st req w))

/-- Name resolution of the winning combo ids (`combo?.name || 'Unknown'`). -/
def topCombosTS (st : Store) (req : ReqTS) (w : ℤ × ℤ) : List Entry :=
  (topCombosDataTS st req w).map
    (fun it => ⟨resolveDisplayName (lookupName st.combos it.1), it.2⟩)

/-- The JSON body of the period-scheme revision. -/
structure RespTS where
  period : String
  startDate : ℤ
  endDate : ℤ
  totalSales : String
  orders : ℕ
  productsSold : ℤ
  avgTicket : String
  topProducts : List Entry
  topCombos : List Entry
deriving DecidableEq

def getStatsTS (now : NowCst) (req : ReqTS) (st : Store) : Except String RespTS :=
  match resolveWindowTS now req with
  | .error e => .error e
  | .ok w =>
      .ok { period := effectivePeriod req
            startDate := w.1
            endDate := w.2
            totalSales := toFixed2 (totalSalesTS st req w)
            orders := orderCountTS st req w
            productsSold := productsSoldTS st req w
            avgTicket := toFixed2 (avgTicketTS st req w)
            topProducts := topProductsTS st req w
            topCombos := topCombosTS st req w }

/-! ### Specification-side comparison definition and concrete inputs -/

/-- Comparison definition following the specification sentence that top-N
rankings are computed "within the current window only" (the window used by
`totalSales`, `orders`, `avgTicket` of the month-comparison revision):
identical to `topProductsP0` except that the detail filter uses the
current-month stats window instead of the trailing-7-day window. -/
def specTopProductsCurrentWindowP0 (st : Store) (now : NowP0) (br : Option ℕ) : List Entry :=
  (rankTop5 (groupSumsBy (fun d => d.product_id)
    (st.details.filter (fun d => d.product_id.isSome &&
      detailSaleSatisfies st
        (salesWhereP0 st br (currentMonthStartP0 now.year now.month)
          (currentMonthEndP0 now.year now.month)) d)))).map
    (fun it => ⟨resolveDisplayName (lookupProductName st it.1), it.2⟩)

def demoStore : Store := ⟨[], [], [], [], [], []⟩

def demoNowP0 : NowP0 := ⟨2024, 2, 2⟩

def demoNowCst : NowCst := ⟨2024, 2, 2, 6⟩

def demoReqToday : ReqTS := ⟨none, some ("today"), none, none⟩

/-- A store with one sale used to exhibit store-independence of the error
paths. -/
def otherStore : Store := ⟨[⟨1, 0, 5, 1⟩], [], [], [], [], []⟩

/-- One sale on 2024-02-26, one product line item: inside the trailing
7-day ranking window of `demoNowP0` (2024-03-02) but outside the current
calendar month. -/
def cxStore : Store :=
  ⟨[⟨1, jsDateMs 2024 1 26 12 0 0 0, 10, 1⟩], [⟨1, some 1, none, 3⟩],
   [⟨1, "A", none⟩], [], [], []⟩

/-- A store whose only line item references combo id 99, which has no
catalog row. -/
def missStore : Store :=
  ⟨[⟨1, jsDateMs 2024 2 2 12 0 0 0 + cstOffsetMs, 10, 1⟩],
   [⟨1, none, some 99, 2⟩], [], [], [], []⟩

/-- The response of the period-scheme revision on the empty store for
`period = today` at `demoNowCst`. -/
def demoRespTS : RespTS :=
  ⟨"today", jsDateMs 2024 2 2 0 0 0 0 + cstOffsetMs,
   jsDateMs 2024 2 2 23 59 59 999 + cstOffsetMs,
   "0.00", 0, 0, "0.00", [], []⟩

/-! ### Calendar lemmas -/

theorem firstOfMonthDays_eq_monthIndexDays (y m : ℤ) :
    firstOfMonthDays y m = monthIndexDays (12 * y + m) := by
  unfold firstOfMonthDays monthIndexDays
  have h1 : y + m / 12 = (12 * y + m) / 12 := by omega
  have h2 : m % 12 = (12 * y + m) % 12 := by omega
  rw [h1, h2]

theorem daysFromCivil_add_400 (y m d : ℤ) :
    daysFromCivil (y + 400) m d = daysFromCivil y m d + 146097 := by
  unfold daysFromCivil
  dsimp only
  split_ifs <;> omega

theorem monthIndexDays_add_4800 (t : ℤ) :
    monthIndexDays (t + 4800) = monthIndexDays t + 146097 := by
  unfold monthIndexDays
  have h1 : (t + 4800) / 12 = t / 12 + 400 := by omega
  have h2 : (t + 4800) % 12 = t % 12 := by omega
  rw [h1, h2, daysFromCivil_add_400]

theorem monthIndexDays_add_mul (t k : ℤ) :
    monthIndexDays (t + 4800 * k) = monthIndexDays t + 146097 * k := by
  induction k using Int.induction_on with
  | hz => simp
  | hp n ih =>
      have h := monthIndexDays_add_4800 (t + 4800 * n)
      have harg : t + 4800 * n + 4800 = t + 4800 * ((n : ℤ) + 1) := by ring
      rw [harg] at h
      rw [h, ih]; ring
  | hn n ih =>
      have h := monthIndexDays_add_4800 (t + 4800 * (-(n : ℤ) - 1))
      have harg : t + 4800 * (-(n : ℤ) - 1) + 4800 = t + 4800 * (-(n : ℤ)) := by ring
      rw [harg] at h
      have := ih
      omega

set_option maxRecDepth 100000 in
set_option maxHeartbeats 16000000 in
theorem monthStepAll_true : monthStepAll = true := by decide

theorem monthStep_of_lt (n : ℕ) (hn : n < 4800) :
    monthIndexDays (n : ℤ) < monthIndexDays ((n : ℤ) + 1) := by
  have hall := monthStepAll_true
  unfold monthStepAll at hall
  rw [List.all_eq_true] at hall
  have hk : n / 480 ∈ List.range 10 := List.mem_range.mpr (by omega)
  have hblock := hall _ hk
  unfold monthStepBlock at hblock
  rw [List.all_eq_true] at hblock
  have hr : n % 480 ∈ List.range 480 := List.mem_range.mpr (by omega)
  have hstep := of_decide_eq_true (hblock _ hr)
  have heq : 480 * (n / 480) + n % 480 = n := by omega
  rw [heq] at hstep
  exact hstep

theorem monthIndexDays_lt_succ (t : ℤ) :
    monthIndexDays t < monthIndexDays (t + 1) := by
  have hr0 : 0 ≤ t % 4800 := Int.emod_nonneg t (by norm_num)
  have hr1 : t % 4800 < 4800 := Int.emod_lt_of_pos t (by norm_num)
  have hdecomp : t = t % 4800 + 4800 * (t / 4800) := by omega
  have h1 : monthIndexDays t
      = monthIndexDays (t % 4800) + 146097 * (t / 4800) := by
    conv_lhs => rw [hdecomp]
    exact monthIndexDays_add_mul _ _
  have h2 : monthIndexDays (t + 1)
      = monthIndexDays (t % 4800 + 1) + 146097 * (t / 4800) := by
    have : t + 1 = (t % 4800 + 1) + 4800 * (t / 4800) := by omega
    rw [this]
    exact monthIndexDays_add_mul _ _
  have hn : ((t % 4800).toNat : ℤ) = t % 4800 := Int.toNat_of_nonneg hr0
  have hcore := monthStep_of_lt (t % 4800).toNat (by omega)
  rw [hn] at hcore
  omega

/-- Every calendar month has at least one day, for every integer year and
(overflowing) month index. -/
theorem monthLengthDays_pos (y m : ℤ) : 0 < monthLengthDays y m := by
  unfold monthLengthDays
  rw [firstOfMonthDays_eq_monthIndexDays, firstOfMonthDays_eq_monthIndexDays]
  have h : 12 * y + (m + 1) = (12 * y + m) + 1 := by ring
  rw [h]
  have := monthIndexDays_lt_succ (12 * y + m)
  omega

/-! ### General helper lemmas -/

theorem filter_and_comm {α : Type} (l : List α) (p q : α → Bool) :
    l.filter (fun a => p a && q a) = (l.filter q).filter p := by
  induction l with
  | nil => rfl
  | cons x xs ih =>
      cases hp : p x <;> cases hq : q x <;>
        simp only [List.filter_cons, hp, hq, Bool.and_true, Bool.and_false,
          Bool.true_and, Bool.false_and, ite_true, ite_false, ih,
          Bool.false_eq_true, Bool.true_eq_false, if_false, if_true]

unseal Rat.mul Rat.inv Rat.add Rat.sub in
theorem positiveOf_zeroZero : positiveOf "0.0" = true := by decide

unseal Rat.mul Rat.inv Rat.add Rat.sub in
theorem positiveOf_negZeroZero : positiveOf "-0.0" = true := by decide

theorem pctChangeStr_zero (cur : ℚ) : pctChangeStr cur 0 = "0.0" := by
  unfold pctChangeStr
  simp

theorem toFixed1_small_neg (q : ℚ) (h0 : q < 0) (h1 : -1/20 < q) :
    toFixed1 q = "-0.0" := by
  have habs : |q| = -q := abs_of_neg h0
  have hn : (⌊10 * |q| + 1 / 2⌋₊ : ℕ) = 0 := by
    rw [Nat.floor_eq_zero, habs]
    linarith
  unfold toFixed1
  rw [hn, if_pos h0]
  decide

theorem rankTop5_sorted (l : List (ℕ × ℤ)) :
    List.Sorted (fun a b => b.2 ≤ a.2) (rankTop5 l) :=
  List.Pairwise.sublist (List.take_sublist 5 _)
    (List.sorted_insertionSort (fun (a b : ℕ × ℤ) => b.2 ≤ a.2) l)

theorem rankTop5_length (l : List (ℕ × ℤ)) : (rankTop5 l).length ≤ 5 := by
  unfold rankTop5
  exact List.length_take_le 5 _

theorem map_sorted (l : List (ℕ × ℤ)) (f : ℕ × ℤ → Entry)
    (hf : ∀ x, (f x).sales = x.2)
    (h : List.Sorted (fun a b => b.2 ≤ a.2) l) :
    List.Sorted (fun a b => b.sales ≤ a.sales) (l.map f) := by
  apply List.Pairwise.map f _ h
  intro a b hab
  rw [hf a, hf b]
  exact hab

/-! ### Claim C1 -/

/-- C1 counterexample: with the clock in March 2024 (month index 2), the
current window (March, 31 days) and the previous window (February 2024,
29 days) have different durations, refuting the claim that they are equal
for every value of the clock. -/
theorem c1_counterexample :
    ¬ (currentMonthEndP0 2024 2 - currentMonthStartP0 2024 2
        = previousMonthEndP0 2024 2 - previousMonthStartP0 2024 2) := by decide

/-- C1 amended: for every clock value, the previous-month window ends
exactly 1000 ms (one second) before the current-month window starts, the
difference of the two window durations is exactly the difference of the two
month lengths in days, and the durations are equal precisely when the
current and previous calendar months have the same number of days. -/
theorem c1_amended (y m : ℤ) :
    previousMonthEndP0 y m + 1000 = currentMonthStartP0 y m
    ∧ (currentMonthEndP0 y m - currentMonthStartP0 y m)
        - (previousMonthEndP0 y m - previousMonthStartP0 y m)
      = (monthLengthDays y m - monthLengthDays y (m - 1)) * 86400000
    ∧ ((currentMonthEndP0 y m - currentMonthStartP0 y m
          = previousMonthEndP0 y m - previousMonthStartP0 y m)
        ↔ monthLengthDays y m = monthLengthDays y (m - 1)) := by
  have hm : m - 1 + 1 = m := by ring
  simp only [previousMonthEndP0, currentMonthStartP0, currentMonthEndP0,
    previousMonthStartP0, jsDateMs, monthLengthDays, hm]
  generalize firstOfMonthDays y (m - 1) = a
  generalize firstOfMonthDays y m = b
  generalize firstOfMonthDays y (m + 1) = c
  omega

/-! ### Claim C2 -/

/-- C2 counterexample: in the month-comparison revision, the top-products
ranking is computed over the trailing-7-day window, not the current-month
stats window.  With the clock at 2024-03-02 and a single product sale on
2024-02-26, the code ranks that sale while the current-window ranking of
the specification is empty. -/
theorem c2_counterexample :
    topProductsP0 cxStore ⟨2024, 2, 2⟩ none
      ≠ specTopProductsCurrentWindowP0 cxStore ⟨2024, 2, 2⟩ none := by decide

/-- C2 amended: in the period-scheme revision, the detail sets feeding the
product-type ranking and the combo ranking are exactly the stats-window
detail set restricted to rows with a non-null product (resp. combo)
reference — the same `[startDate, endDate]` window as
`totalSales`/`orders`/`avgTicket`; in the month-comparison revision, the
top-products ranking is computed over the details whose parent sale passes
the branch filter and has `created_at >= last7DaysStart`, with no upper
bound — a window that can differ from the current-month stats window. -/
theorem c2_amended :
    (∀ (st : Store) (req : ReqTS) (w : ℤ × ℤ),
      saleDetailsWithProductsTS st req w
        = (saleDetailsQueryTS st req w).filter (fun d => d.product_id.isSome)
      ∧ comboDetailsTS st req w
        = (saleDetailsQueryTS st req w).filter (fun d => d.combo_id.isSome))
    ∧ (∀ (st : Store) (now : NowP0) (br : Option ℕ),
      topProductsDataP0 st now br = rankTop5 (groupSumsBy (fun d => d.product_id)
        (st.details.filter (fun d => d.product_id.isSome &&
          detailSaleSatisfies st
            (fun s => branchOk st br s && decide (last7DaysStartP0 now ≤ s.created_at)) d)))) := by
  refine ⟨?_, ?_⟩
  · intro st req w
    constructor
    · unfold saleDetailsWithProductsTS saleDetailsQueryTS
      exact filter_and_comm _ _ _
    · unfold comboDetailsTS saleDetailsQueryTS
      exact filter_and_comm _ _ _
  · intro st now br
    rfl

/-! ### Claim C3 -/

/-- C3: in both revisions, whenever the fetched sales list is empty (order
count zero) the average ticket is 0, and the division
`totalSales / orderCount` is only taken under the guard
`orderCount > 0`. -/
theorem c3_theorem :
    (∀ (st : Store) (req : ReqTS) (w : ℤ × ℤ),
        orderCountTS st req w = 0 → avgTicketTS st req w = 0)
    ∧ (∀ (st : Store) (req : ReqTS) (w : ℤ × ℤ),
        0 < orderCountTS st req w →
        avgTicketTS st req w = totalSalesTS st req w / (orderCountTS st req w : ℚ))
    ∧ (∀ (st : Store) (now : NowP0) (br : Option ℕ),
        currentOrderCountP0 st now br = 0 → currentAvgTicketP0 st now br = 0)
    ∧ (∀ (st : Store) (now : NowP0) (br : Option ℕ),
        previousOrderCountP0 st now br = 0 → previousAvgTicketP0 st now br = 0) := by
  refine ⟨?_, ?_, ?_, ?_⟩
  · intro st req w h
    unfold avgTicketTS
    rw [h]
    simp
  · intro st req w h
    unfold avgTicketTS
    rw [if_pos h]
  · intro st now br h
    unfold currentAvgTicketP0
    rw [h]
    simp
  · intro st now br h
    unfold previousAvgTicketP0
    rw [h]
    simp

/-- C3 witness: on the empty store the order count is zero and the average
ticket evaluates to 0. -/
theorem c3_witness : avgTicketTS demoStore demoReqToday (0, 0) = 0 :=
  c3_theorem.1 demoStore demoReqToday (0, 0) rfl

/-! ### Claim C4 -/

/-- C4: for each of the four metrics of the month-comparison revision,
whenever the previous-period value is 0 the reported change string is
exactly the string zero-dot-zero and the positive flag is true, for every
store, clock and branch filter (hence every current value). -/
theorem c4_theorem (st : Store) (now : NowP0) (br : Option ℕ) :
    (previousTotalSalesP0 st now br = 0 →
      salesChangeP0 st now br = "0.0" ∧ positiveOf (salesChangeP0 st now br) = true)
    ∧ (previousOrderCountP0 st now br = 0 →
      ordersChangeP0 st now br = "0.0" ∧ positiveOf (ordersChangeP0 st now br) = true)
    ∧ (previousProductsSoldP0 st now br = 0 →
      productsSoldChangeP0 st now br = "0.0"
        ∧ positiveOf (productsSoldChangeP0 st now br) = true)
    ∧ (previousAvgTicketP0 st now br = 0 →
      avgTicketChangeP0 st now br = "0.0"
        ∧ positiveOf (avgTicketChangeP0 st now br) = true) := by
  refine ⟨?_, ?_, ?_, ?_⟩
  · intro h
    have hs : salesChangeP0 st now br = "0.0" := by
      unfold salesChangeP0
      rw [h, pctChangeStr_zero]
    exact ⟨hs, by rw [hs]; exact positiveOf_zeroZero⟩
  · intro h
    have hs : ordersChangeP0 st now br = "0.0" := by
      unfold ordersChangeP0
      rw [h, Nat.cast_zero, pctChangeStr_zero]
    exact ⟨hs, by rw [hs]; exact positiveOf_zeroZero⟩
  · intro h
    have hs : productsSoldChangeP0 st now br = "0.0" := by
      unfold productsSoldChangeP0
      rw [h, Int.cast_zero, pctChangeStr_zero]
    exact ⟨hs, by rw [hs]; exact positiveOf_zeroZero⟩
  · intro h
    have hs : avgTicketChangeP0 st now br = "0.0" := by
      unfold avgTicketChangeP0
      rw [h, pctChangeStr_zero]
    exact ⟨hs, by rw [hs]; exact positiveOf_zeroZero⟩

/-- C4 witness: on the empty store all previous-period values are 0; the
sales and orders change strings evaluate to the zero string with a true
positive flag. -/
theorem c4_witness :
    (salesChangeP0 demoStore demoNowP0 none = "0.0"
      ∧ positiveOf (salesChangeP0 demoStore demoNowP0 none) = true)
    ∧ (ordersChangeP0 demoStore demoNowP0 none = "0.0"
      ∧ positiveOf (ordersChangeP0 demoStore demoNowP0 none) = true)
    ∧ (productsSoldChangeP0 demoStore demoNowP0 none = "0.0"
      ∧ positiveOf (productsSoldChangeP0 demoStore demoNowP0 none) = true)
    ∧ (avgTicketChangeP0 demoStore demoNowP0 none = "0.0"
      ∧ positiveOf (avgTicketChangeP0 demoStore demoNowP0 none) = true) :=
  ⟨(c4_theorem demoStore demoNowP0 none).1 rfl,
   (c4_theorem demoStore demoNowP0 none).2.1 rfl,
   (c4_theorem demoStore demoNowP0 none).2.2.1 rfl,
   (c4_theorem demoStore demoNowP0 none).2.2.2 rfl⟩

/-! ### Claim C5 -/

/-- C5: in the period-scheme revision, a custom period with a missing
start or end date yields exactly the 400 error message about the custom
range, and a period outside today/week/month/custom yields exactly the 400
error message about valid periods; in both cases the result is identical
for every pair of store states, so no store query can influence (or be
observed in) the response. -/
theorem c5_theorem (now : NowCst) (req : ReqTS) (st st2 : Store) :
    (effectivePeriod req = "custom" →
      (req.startDate = none ∨ req.endDate = none) →
      getStatsTS now req st = .error ("Custom range requires startDate and endDate")
      ∧ getStatsTS now req st = getStatsTS now req st2)
    ∧ ((effectivePeriod req ≠ "today" ∧ effectivePeriod req ≠ "week"
        ∧ effectivePeriod req ≠ "month" ∧ effectivePeriod req ≠ "custom") →
      getStatsTS now req st = .error ("Invalid period. Use: today, week, month, or custom")
      ∧ getStatsTS now req st = getStatsTS now req st2) := by
  constructor
  · intro hc hmiss
    have hres : resolveWindowTS now req
        = .error ("Custom range requires startDate and endDate") := by
      unfold resolveWindowTS
      rw [hc]
      rw [if_neg (by decide), if_neg (by decide), if_neg (by decide), if_pos rfl]
      rcases hmiss with h | h
      · rw [h]
      · rw [h]
        rcases req.startDate with _ | sd <;> rfl
    have hs1 : getStatsTS now req st
        = .error ("Custom range requires startDate and endDate") := by
      unfold getStatsTS
      rw [hres]
    have hs2 : getStatsTS now req st2
        = .error ("Custom range requires startDate and endDate") := by
      unfold getStatsTS
      rw [hres]
    exact ⟨hs1, hs1.trans hs2.symm⟩
  · intro hbad
    obtain ⟨h1, h2, h3, h4⟩ := hbad
    have hres : resolveWindowTS now req
        = .error ("Invalid period. Use: today, week, month, or custom") := by
      unfold resolveWindowTS
      rw [if_neg h1, if_neg h2, if_neg h3, if_neg h4]
    have hs1 : getStatsTS now req st
        = .error ("Invalid period. Use: today, week, month, or custom") := by
      unfold getStatsTS
      rw [hres]
    have hs2 : getStatsTS now req st2
        = .error ("Invalid period. Use: today, week, month, or custom") := by
      unfold getStatsTS
      rw [hres]
    exact ⟨hs1, hs1.trans hs2.symm⟩

/-- C5 witness: a custom request missing both dates yields the custom-range
400 message, an unknown period string yields the invalid-period 400
message, and each response coincides between the empty store and a
non-empty store. -/
theorem c5_witness :
    (getStatsTS demoNowCst ⟨none, some ("custom"), none, none⟩ demoStore
        = .error ("Custom range requires startDate and endDate")
      ∧ getStatsTS demoNowCst ⟨none, some ("custom"), none, none⟩ demoStore
        = getStatsTS demoNowCst ⟨none, some ("custom"), none, none⟩ otherStore)
    ∧ (getStatsTS demoNowCst ⟨none, some ("annual"), none, none⟩ demoStore
        = .error ("Invalid period. Use: today, week, month, or custom")
      ∧ getStatsTS demoNowCst ⟨none, some ("annual"), none, none⟩ demoStore
        = getStatsTS demoNowCst ⟨none, some ("annual"), none, none⟩ otherStore) :=
  ⟨(c5_theorem demoNowCst ⟨none, some ("custom"), none, none⟩ demoStore otherStore).1
      rfl (Or.inl rfl),
   (c5_theorem demoNowCst ⟨none, some ("annual"), none, none⟩ demoStore otherStore).2
      ⟨by decide, by decide, by decide, by decide⟩⟩

/-! ### Claim C6 -/

/-- C6 counterexample: a well-formed custom range with the end date one
day before the start date (2024-01-02 to 2024-01-01) reaches the query
step and resolves to an inverted window with end strictly before start. -/
theorem c6_counterexample :
    resolveWindowTS ⟨2024, 0, 15, 1⟩
        ⟨none, some ("custom"), some ⟨2024, 1, 2⟩, some ⟨2024, 1, 1⟩⟩
      = .ok (cstToUtcMs ⟨2024, 1, 2⟩ false, cstToUtcMs ⟨2024, 1, 1⟩ true)
    ∧ cstToUtcMs ⟨2024, 1, 1⟩ true < cstToUtcMs ⟨2024, 1, 2⟩ false := by
  constructor
  · rfl
  · decide

/-- C6 amended: every resolved window of the non-custom periods (today,
week, month) satisfies start < end for every clock value; a resolved
custom window satisfies start < end exactly when the start date is on or
before the end date; and in the month-comparison revision both the
previous-month and the current-month windows always satisfy
start < end. -/
theorem c6_amended :
    (∀ (now : NowCst) (req : ReqTS) (w : ℤ × ℤ), resolveWindowTS now req = .ok w →
      (effectivePeriod req ≠ "custom" → w.1 < w.2)
      ∧ (effectivePeriod req = "custom" → ∀ sd ed,
          req.startDate = some sd → req.endDate = some ed →
          (w.1 < w.2 ↔ daysFromCivil sd.year sd.month sd.day
              ≤ daysFromCivil ed.year ed.month ed.day)))
    ∧ (∀ y m : ℤ, previousMonthStartP0 y m < previousMonthEndP0 y m
        ∧ currentMonthStartP0 y m < currentMonthEndP0 y m) := by
  constructor
  · intro now req w h
    unfold resolveWindowTS at h
    by_cases hp1 : effectivePeriod req = "today"
    · rw [if_pos hp1] at h
      cases h
      refine ⟨fun _ => ?_, fun hc => absurd (hp1.symm.trans hc) (by decide)⟩
      simp only [jsDateMs]
      generalize firstOfMonthDays now.year now.month = A
      omega
    · rw [if_neg hp1] at h
      by_cases hp2 : effectivePeriod req = "week"
      · rw [if_pos hp2] at h
        cases h
        refine ⟨fun _ => ?_, fun hc => absurd (hp2.symm.trans hc) (by decide)⟩
        simp only [jsDateMs]
        generalize firstOfMonthDays now.year now.month = A
        split_ifs <;> omega
      · rw [if_neg hp2] at h
        by_cases hp3 : effectivePeriod req = "month"
        · rw [if_pos hp3] at h
          cases h
          refine ⟨fun _ => ?_, fun hc => absurd (hp3.symm.trans hc) (by decide)⟩
          have hpos := monthLengthDays_pos now.year now.month
          unfold monthLengthDays at hpos
          simp only [jsDateMs]
          generalize hA : firstOfMonthDays now.year now.month = A at hpos ⊢
          generalize hB : firstOfMonthDays now.year (now.month + 1) = B at hpos ⊢
          omega
        · rw [if_neg hp3] at h
          by_cases hp4 : effectivePeriod req = "custom"
          · rw [if_pos hp4] at h
            rcases hsd : req.startDate with _ | sd
            · rw [hsd] at h
              cases h
            · rcases hed : req.endDate with _ | ed
              · rw [hsd, hed] at h
                cases h
              · rw [hsd, hed] at h
                cases h
                refine ⟨fun hne => absurd hp4 hne, fun _ sd2 ed2 hsd2 hed2 => ?_⟩
                cases Option.some.inj hsd2
                cases Option.some.inj hed2
                dsimp only
                have e1 : cstToUtcMs sd false
                    = daysFromCivil sd.year sd.month sd.day * 86400000 + 0 + 21600000 := rfl
                have e2 : cstToUtcMs ed true
                    = daysFromCivil ed.year ed.month ed.day * 86400000 + 86399999 + 21600000 := rfl
                rw [e1, e2]
                generalize daysFromCivil sd.year sd.month sd.day = A
                generalize daysFromCivil ed.year ed.month ed.day = B
                omega
          · rw [if_neg hp4] at h
            cases h
  · intro y m
    have hp1 := monthLengthDays_pos y (m - 1)
    have hp2 := monthLengthDays_pos y m
    have hm : m - 1 + 1 = m := by ring
    unfold monthLengthDays at hp1 hp2
    rw [hm] at hp1
    unfold previousMonthStartP0 previousMonthEndP0 currentMonthStartP0 currentMonthEndP0 jsDateMs
    generalize hA : firstOfMonthDays y (m - 1) = A at hp1 ⊢
    generalize hB : firstOfMonthDays y m = B at hp1 hp2 ⊢
    generalize hC : firstOfMonthDays y (m + 1) = C at hp2 ⊢
    omega

/-- C6 witness: the resolved today-window at the demo clock is proper. -/
theorem c6_witness :
    jsDateMs 2024 2 2 0 0 0 0 + cstOffsetMs
      < jsDateMs 2024 2 2 23 59 59 999 + cstOffsetMs :=
  (c6_amended.1 demoNowCst demoReqToday _ rfl).1 (by decide)

/-! ### Claim C7 -/

/-- C7: every ranked list of a successful response (topProducts and
topCombos of the period-scheme revision, topProducts of the
month-comparison revision) has at most 5 entries and is sorted in
non-increasing order of its summed sales quantity, for every store
state. -/
theorem c7_theorem :
    (∀ (now : NowCst) (req : ReqTS) (st : Store) (r : RespTS),
      getStatsTS now req st = .ok r →
      (r.topProducts.length ≤ 5
        ∧ List.Sorted (fun a b => b.sales ≤ a.sales) r.topProducts)
      ∧ (r.topCombos.length ≤ 5
        ∧ List.Sorted (fun a b => b.sales ≤ a.sales) r.topCombos))
    ∧ (∀ (st : Store) (now : NowP0) (br : Option ℕ),
      (getStatsP0 st now br).topProducts.length ≤ 5
        ∧ List.Sorted (fun a b => b.sales ≤ a.sales) (getStatsP0 st now br).topProducts) := by
  constructor
  · intro now req st r h
    unfold getStatsTS at h
    cases hres : resolveWindowTS now req with
    | error e =>
        rw [hres] at h
        cases h
    | ok w =>
        rw [hres] at h
        cases h
        refine ⟨⟨?_, ?_⟩, ⟨?_, ?_⟩⟩
        · exact List.length_take_le 5 _
        · exact List.Pairwise.sublist (List.take_sublist 5 _)
            (List.sorted_insertionSort (fun (a b : Entry) => b.sales ≤ a.sales) _)
        · show (topCombosTS st req w).length ≤ 5
          unfold topCombosTS
          rw [List.length_map]
          exact rankTop5_length _
        · show List.Sorted (fun a b => b.sales ≤ a.sales) (topCombosTS st req w)
          unfold topCombosTS
          exact map_sorted _ _ (fun x => rfl) (rankTop5_sorted _)
  · intro st now br
    constructor
    · show (topProductsP0 st now br).length ≤ 5
      unfold topProductsP0
      rw [List.length_map]
      exact rankTop5_length _
    · show List.Sorted (fun a b => b.sales ≤ a.sales) (topProductsP0 st now br)
      unfold topProductsP0
      exact map_sorted _ _ (fun x => rfl) (rankTop5_sorted _)

unseal Rat.mul Rat.inv Rat.add Rat.sub in
/-- C7 witness: the empty-store today response has (empty) ranked lists of
length at most 5, sorted. -/
theorem c7_witness :
    (demoRespTS.topProducts.length ≤ 5
      ∧ List.Sorted (fun a b => b.sales ≤ a.sales) demoRespTS.topProducts)
    ∧ (demoRespTS.topCombos.length ≤ 5
      ∧ List.Sorted (fun a b => b.sales ≤ a.sales) demoRespTS.topCombos) :=
  c7_theorem.1 demoNowCst demoReqToday demoStore demoRespTS rfl

/-! ### Claim C8 -/

/-- C8: an identifier whose catalog lookup finds no row resolves to the
sentinel name Unknown (combo lookup of the period-scheme revision, product
lookup of the month-comparison revision), and whenever the window resolves
the period-scheme handler returns a success response for every store, so a
missing reference is never promoted to an error. -/
theorem c8_theorem :
    (∀ (rows : List NamedRow) (i : ℕ),
      rows.find? (fun r => r.id == i) = none →
      resolveDisplayName (lookupName rows i) = "Unknown")
    ∧ (∀ (st : Store) (i : ℕ),
      st.products.find? (fun p => p.id == i) = none →
      resolveDisplayName (lookupProductName st i) = "Unknown")
    ∧ (∀ (now : NowCst) (req : ReqTS) (st : Store) (w : ℤ × ℤ),
      resolveWindowTS now req = .ok w →
      ∃ r, getStatsTS now req st = .ok r) := by
  refine ⟨?_, ?_, ?_⟩
  · intro rows i h
    unfold lookupName
    rw [h]
    rfl
  · intro st i h
    unfold lookupProductName
    rw [h]
    rfl
  · intro now req st w h
    unfold getStatsTS
    rw [h]
    exact ⟨_, rfl⟩

/-- C8 witness: the empty catalog resolves id 0 to the sentinel name, and
the handler still succeeds on a store whose only line item references the
absent combo id 99. -/
theorem c8_witness :
    resolveDisplayName (lookupName ([] : List NamedRow) 0) = "Unknown"
    ∧ ∃ r, getStatsTS demoNowCst demoReqToday missStore = .ok r :=
  ⟨c8_theorem.1 [] 0 rfl,
   c8_theorem.2.2 demoNowCst demoReqToday missStore _ rfl⟩

/-! ### Claim C9 -/

/-- C9: in the period-scheme revision the branch filter is a no-op — two
requests identical except for the branch id (present, absent, or any
value) produce identical responses for every store state and clock. -/
theorem c9_theorem (now : NowCst) (st : Store) (b1 b2 : Option ℕ)
    (p : Option String) (sd ed : Option CivilDate) :
    getStatsTS now ⟨b1, p, sd, ed⟩ st = getStatsTS now ⟨b2, p, sd, ed⟩ st := rfl

/-! ### Claim C10 -/

/-- C10: the positive flag is derived from the rounded change string, not
the exact difference: whenever the previous value is strictly positive and
the exact relative change is negative with magnitude below 0.05 percent,
the change string renders as minus zero-dot-zero, parseFloat yields a zero
that compares greater-or-equal to 0, and the flag is true even though the
current value is strictly below the previous one. -/
theorem c10_theorem (cur prev : ℚ) (hp : 0 < prev) (hlt : cur < prev)
    (hsmall : 100 * (prev - cur) / prev < 1 / 20) :
    pctChangeStr cur prev = "-0.0"
    ∧ positiveOf (pctChangeStr cur prev) = true ∧ cur < prev := by
  have hq0 : (cur - prev) / prev * 100 < 0 := by
    apply mul_neg_of_neg_of_pos _ (by norm_num)
    exact div_neg_of_neg_of_pos (by linarith) hp
  have hqeq : (cur - prev) / prev * 100 = -(100 * (prev - cur) / prev) := by
    field_simp
    ring
  have hq1 : -1/20 < (cur - prev) / prev * 100 := by
    rw [hqeq]
    linarith
  have hfix : pctChangeStr cur prev = "-0.0" := by
    unfold pctChangeStr
    rw [if_pos hp]
    exact toFixed1_small_neg _ hq0 hq1
  exact ⟨hfix, by rw [hfix]; exact positiveOf_negZeroZero, hlt⟩

unseal Rat.mul Rat.inv Rat.add Rat.sub in
/-- C10 witness: previous 10000 and current 9999 give an exact change of
minus 0.01 percent, rendered as minus zero-dot-zero with a true positive
flag. -/
theorem c10_witness :
    pctChangeStr 9999 10000 = "-0.0"
    ∧ positiveOf (pctChangeStr 9999 10000) = true ∧ (9999 : ℚ) < 10000 :=
  c10_theorem 9999 10000 (by decide) (by decide) (by decide)

end CrepePos
